import Mathlib

/-!
Shallow embedding of the entity synchronization and caching engine of
`td/telegram/ContactsManager.cpp`, together with proofs about its version
gating, update dispatch, durability pipeline, request coalescing,
speculative mutation and contact hashing logic.

Machine `int32` values are modelled as `Int`; the arithmetic performed by
the embedded functions never relies on wrap-around in the regions the
theorems quantify over.  Collaborator calls (logging, timers, message
manager notifications, the public update stream) are modelled as emitted
events where a claim depends on them.
-/

namespace TD

/-- Conversion of a C++ `bool` used in integer arithmetic (`true` is 1). -/
def b2i (b : Bool) : Int := if b then 1 else 0

/-! ### Chat version gating (C1)

`ContactsManager::on_update_chat_full_participants_short` (lines 8601-8620)
and the version-handling portion of
`ContactsManager::on_update_chat_edit_administrator` (lines 8276-8300). -/

/-- The version counter of a `ChatFull` record.  `-1` means the chat members
are unknown. -/
structure ChatFullV where
  version : Int
  deriving DecidableEq, Repr

/-- Result of `on_update_chat_full_participants_short`: the possibly updated
record, whether the caller should apply the update fields (the C++ return
value), and how many `repair_chat_participants` refetches were issued. -/
structure ShortRes where
  chat_full : ChatFullV
  applied : Bool
  repairs : Nat
  deriving DecidableEq, Repr

/-- `ContactsManager::on_update_chat_full_participants_short`.  A negative
version or an unknown (`-1`) cached version is rejected without repair;
exactly `current + 1` is applied; any other version triggers one repair
refetch and is rejected. -/
def on_update_chat_full_participants_short (chat_full : ChatFullV) (version : Int) : ShortRes :=
  if version ≤ -1 then
    ⟨chat_full, false, 0⟩
  else if chat_full.version = -1 then
    -- chat members are unknown, nothing to update
    ⟨chat_full, false, 0⟩
  else if chat_full.version + 1 = version then
    ⟨⟨version⟩, true, 0⟩
  else
    ⟨chat_full, false, 1⟩

/-- Feed a sequence of incremental participant updates through
`on_update_chat_full_participants_short`, collecting the final record, the
total number of repair refetches, and the versions whose fields were
applied. -/
def feed_short_versions (cf : ChatFullV) (vs : List Int) : ChatFullV × Nat × List Int :=
  vs.foldl
    (fun acc v =>
      let r := on_update_chat_full_participants_short acc.1 v
      (r.chat_full, acc.2.1 + r.repairs, acc.2.2 ++ (if r.applied then [v] else [])))
    (cf, 0, [])

/-- The version counter of a basic-group `Chat` record. -/
structure ChatV where
  version : Int
  is_changed : Bool
  deriving DecidableEq, Repr

/-- Result of the `Chat`-record version step of
`on_update_chat_edit_administrator`: the record, whether the new status was
applied, and the number of repair refetches issued. -/
structure EditAdminRes where
  chat : ChatV
  applied : Bool
  repairs : Nat
  deriving DecidableEq, Repr

/-- The version-handling portion of
`ContactsManager::on_update_chat_edit_administrator` acting on the `Chat`
record (lines 8276-8300): a negative version is rejected; a version at or
below the cached one is silently ignored; `current + 1` is applied; a larger
version triggers one repair refetch and is rejected. -/
def on_update_chat_edit_administrator_chat (c : ChatV) (version : Int) : EditAdminRes :=
  if version ≤ -1 then
    ⟨c, false, 0⟩
  else if version > c.version then
    if version ≠ c.version + 1 then
      ⟨c, false, 1⟩
    else
      ⟨⟨version, true⟩, true, 0⟩
  else
    ⟨c, false, 0⟩

/-! ### Bot-info version gating (C2)

`ContactsManager::on_update_user_full_bot_info` (lines 6735-6759). -/

/-- The cached bot info of a full user record, keyed by version. -/
structure BotInfo where
  version : Int
  description : String
  commands : List (String × String)
  deriving DecidableEq, Repr

/-- The wire form `telegram_api::botInfo`: a description and a list of
commands, each a command string with its description. -/
structure BotInfoInput where
  description : String
  commands : List (String × String)
  deriving DecidableEq, Repr

/-- A `UserFull` record: the TTL-expiring extension of a user entity.
Only the fields the verified operations touch are modelled. -/
structure UserFull where
  bot_info : Option BotInfo
  is_changed : Bool
  is_inited : Bool
  expires_at : Int
  deriving DecidableEq, Repr

/-- `ContactsManager::on_update_user_full_bot_info`: an incoming bot info
with version `bot_info_version` replaces the stored one and marks the record
changed unless a stored bot info exists whose version is greater than or
equal to the incoming one, in which case nothing changes and `false` is
returned. -/
def on_update_user_full_bot_info (user_full : UserFull) (bot_info_version : Int)
    (bot_info : BotInfoInput) : UserFull × Bool :=
  match user_full.bot_info with
  | some bi =>
    if bi.version > bot_info_version then
      (user_full, false)
    else if bi.version = bot_info_version then
      (user_full, false)
    else
      ({ user_full with
          bot_info := some ⟨bot_info_version, bot_info.description, bot_info.commands⟩,
          is_changed := true }, true)
  | none =>
      ({ user_full with
          bot_info := some ⟨bot_info_version, bot_info.description, bot_info.commands⟩,
          is_changed := true }, true)

/-! ### The user record and the update/diff dispatcher (C3)

`ContactsManager::update_user` (lines 6245-6350). -/

/-- A user entity record: per-field dirty flags, the two aggregate flags
(`is_changed` for persistence, `need_send_update` for the public update
stream), durability bookkeeping and the fields the dispatcher reads. -/
structure User where
  is_name_changed : Bool
  is_username_changed : Bool
  is_photo_changed : Bool
  is_outbound_link_changed : Bool
  is_default_permissions_changed : Bool
  is_status_changed : Bool
  is_online_status_changed : Bool
  is_changed : Bool
  need_send_update : Bool
  is_saved : Bool
  is_status_saved : Bool
  is_being_saved : Bool
  is_deleted : Bool
  is_repaired : Bool
  cache_version : Int
  logevent_id : Nat
  was_online : Int
  photo_id : Int
  bot_info_version : Int
  deriving DecidableEq, Repr

/-- Collaborator calls performed by `update_user`, modelled as events.
`sendUpdateUser` is the public "entity replaced" update event. -/
inductive UEvent where
  | updateContactsHints
  | dialogTitleUpdated (dialog : Int)
  | dialogPhotoUpdated (dialog : Int)
  | addUserPhotoId
  | userFullPhotosReset
  | setOnlineTimeout (left_time : Int)
  | cancelOnlineTimeout
  | dialogPermissionsUpdated
  | removeRecentInlineBot
  | sendUpdateUser
  | sendUpdateUserStatus
  | updateUserOnlineMemberCount
  | saveUser (from_binlog : Bool)
  | reloadUser
  deriving DecidableEq, Repr

/-- Whether an event is the public `updateUser` event. -/
def UEvent.isSendUpdateUser : UEvent → Bool
  | .sendUpdateUser => true
  | _ => false

/-- Ambient data `update_user` reads: the id being updated, the current
user's id, the secret chat ids opened with this user, the cached server
time, whether a `UserFull` record exists, the current cache format version,
read access, and the engine close flag. -/
structure UpdateEnv where
  user_id : Int
  my_id : Int
  secret_chat_ids : List Int
  server_time : Int
  has_user_full : Bool
  cache_version_current : Int
  have_input_peer_read : Bool
  close_flag : Bool
  deriving DecidableEq, Repr

/-- `ContactsManager::update_user`: perform the side effects implied by the
per-field dirty flags, clear those flags, emit the public update event when
`need_send_update` is set (clearing both aggregate flags together), emit the
status update when only the status changed, schedule a save unless the
mutation came from the database, and issue at most one cache repair refetch
guarded by `is_repaired`.  Collaborator calls are returned as events in
program order. -/
def update_user (env : UpdateEnv) (u : User) (from_binlog from_database : Bool) :
    User × List UEvent :=
  let e_hints : List UEvent :=
    if u.is_name_changed || u.is_username_changed || u.is_outbound_link_changed then
      [.updateContactsHints]
    else []
  let e_name : List UEvent :=
    if u.is_name_changed then
      .dialogTitleUpdated env.user_id :: env.secret_chat_ids.map (.dialogTitleUpdated ·)
    else []
  let e_photo : List UEvent :=
    if u.is_photo_changed then
      (.dialogPhotoUpdated env.user_id :: env.secret_chat_ids.map (.dialogPhotoUpdated ·))
        ++ [.addUserPhotoId]
        ++ (if env.has_user_full then [.userFullPhotosReset] else [])
    else []
  let e_status_timer : List UEvent :=
    if u.is_status_changed && env.user_id != env.my_id then
      let left_time := u.was_online - env.server_time
      if 0 ≤ left_time ∧ left_time < 30 * 86400 then
        [.setOnlineTimeout (left_time + 2)]
      else
        [.cancelOnlineTimeout]
    else []
  let e_permissions : List UEvent :=
    if u.is_default_permissions_changed then [.dialogPermissionsUpdated] else []
  let u := { u with
    is_name_changed := false
    is_username_changed := false
    is_photo_changed := false
    is_outbound_link_changed := false
    is_default_permissions_changed := false }
  let e_deleted : List UEvent := if u.is_deleted then [.removeRecentInlineBot] else []
  let (u, e_update) :=
    if u.is_changed || u.need_send_update then
      let u := if !from_database then { u with is_saved := false } else u
      let (u, e) :=
        if u.need_send_update then
          ({ u with need_send_update := false, is_status_changed := false },
            [UEvent.sendUpdateUser])
        else (u, [])
      ({ u with is_changed := false }, e)
    else (u, [])
  let (u, e_status) :=
    if u.is_status_changed then
      let u := if !from_database then { u with is_status_saved := false } else u
      ({ u with is_status_changed := false }, [UEvent.sendUpdateUserStatus])
    else (u, [])
  let (u, e_online) :=
    if u.is_online_status_changed then
      ({ u with is_online_status_changed := false }, [UEvent.updateUserOnlineMemberCount])
    else (u, [])
  let e_save : List UEvent := if !from_database then [.saveUser from_binlog] else []
  let (u, e_repair) :=
    if u.cache_version ≠ env.cache_version_current ∧ ¬u.is_repaired
        ∧ env.have_input_peer_read ∧ ¬env.close_flag then
      ({ u with is_repaired := true }, [UEvent.reloadUser])
    else (u, [])
  (u, e_hints ++ e_name ++ e_photo ++ e_status_timer ++ e_permissions ++ e_deleted
      ++ e_update ++ e_status ++ e_online ++ e_save ++ e_repair)

/-- All dirty flags of a user record are clear: the per-field flags and the
two aggregate flags. -/
def User.dirtyFlagsClear (u : User) : Prop :=
  u.is_name_changed = false ∧ u.is_username_changed = false ∧ u.is_photo_changed = false
    ∧ u.is_outbound_link_changed = false ∧ u.is_default_permissions_changed = false
    ∧ u.is_status_changed = false ∧ u.is_online_status_changed = false
    ∧ u.is_changed = false ∧ u.need_send_update = false

instance (u : User) : Decidable u.dirtyFlagsClear := by
  unfold User.dirtyFlagsClear
  infer_instance

/-! ### The two-phase save pipeline (C4)

`ContactsManager::save_user` (lines 5339-5357),
`ContactsManager::save_user_to_database` (lines 5387-5401),
`ContactsManager::save_user_to_database_impl` (lines 5403-5415) and
`ContactsManager::on_save_user_to_database` (lines 5417-5444), specialised
to one user id. -/

/-- Ambient configuration of the save pipeline: whether the chat info
database is enabled, whether this user id has already been loaded from the
database (`loaded_from_database_users_`), and whether a database load query
for it is pending (`load_user_from_database_queries_`). -/
structure SaveEnv where
  use_chat_info_db : Bool
  loaded_from_database : Bool
  load_query_pending : Bool
  deriving DecidableEq, Repr

/-- State of the save pipeline for one user: the record, the set of live
write-ahead-log entry ids, the next fresh log entry id, whether a
keyed-store write is in flight, and whether a database load was scheduled
instead of a save. -/
structure SaveState where
  u : User
  binlog : List Nat
  next_log_id : Nat
  pending_db_write : Bool
  pending_load : Bool
  deriving DecidableEq, Repr

/-- `ContactsManager::save_user_to_database_impl`: mark the record as being
saved and optimistically saved, and issue the keyed-store write. -/
def save_user_to_database_impl (s : SaveState) : SaveState :=
  { s with
      u := { s.u with is_being_saved := true, is_saved := true, is_status_saved := true }
      pending_db_write := true }

/-- `ContactsManager::save_user_to_database`: do nothing while a save is in
flight; write through if the record was already loaded from the database;
otherwise fall back to loading it first. -/
def save_user_to_database (env : SaveEnv) (s : SaveState) : SaveState :=
  if s.u.is_being_saved then s
  else if env.loaded_from_database then save_user_to_database_impl s
  else if env.load_query_pending then s
  else { s with pending_load := true }

/-- `ContactsManager::save_user`: when the record is not fully saved, first
append (or rewrite in place) its write-ahead-log entry unless the mutation
came from the binlog itself, then start the keyed-store write. -/
def save_user (env : SaveEnv) (from_binlog : Bool) (s : SaveState) : SaveState :=
  if ¬env.use_chat_info_db then s
  else if ¬s.u.is_saved ∨ ¬s.u.is_status_saved then
    let s :=
      if from_binlog then s
      else if s.u.logevent_id = 0 then
        { s with
            u := { s.u with logevent_id := s.next_log_id }
            binlog := s.binlog ++ [s.next_log_id]
            next_log_id := s.next_log_id + 1 }
      else
        -- binlog_rewrite: the entry payload is replaced in place
        s
    save_user_to_database env s
  else s

/-- The flag-marking stage of `ContactsManager::on_save_user_to_database`
(lines 5427-5435): clear `is_being_saved` and, on failure, re-mark the
record unsaved. -/
def on_save_user_to_database_mark (success : Bool) (s : SaveState) : SaveState :=
  let u := { s.u with is_being_saved := false }
  let u := if !success then { u with is_saved := false, is_status_saved := false } else u
  { s with u := u, pending_db_write := false }

/-- `ContactsManager::on_save_user_to_database`: after the keyed-store write
completes, either erase the write-ahead-log entry (only when the record is
fully saved) or schedule a fresh save. -/
def on_save_user_to_database (env : SaveEnv) (success : Bool) (s : SaveState) : SaveState :=
  let s := on_save_user_to_database_mark success s
  if s.u.is_saved ∧ s.u.is_status_saved then
    if s.u.logevent_id ≠ 0 then
      { s with binlog := s.binlog.erase s.u.logevent_id, u := { s.u with logevent_id := 0 } }
    else s
  else
    save_user env (s.u.logevent_id ≠ 0) s

/-! ### Request coalescing (C5)

`ContactsManager::load_user_from_database_impl` (lines 5456-5467) with the
delivery loop of `ContactsManager::on_load_user_from_database`
(lines 5469-5525), specialised to one user id; promises are identified by
numbers.  The network-fetch multiplexer used by
`ContactsManager::send_get_user_full_query` (lines 9052-9061) lives in
`QueryCombiner`, whose source is outside this file's repository slice and is
therefore modelled from its specification. -/

/-- Per-id state of the database load path: the queued promises
(`load_user_from_database_queries_[user_id]`), whether the id is in
`loaded_from_database_users_`, and how many database get queries were
issued. -/
structure LoadDBState where
  queries : List Nat
  loaded : Bool
  db_gets : Nat
  deriving DecidableEq, Repr

/-- `ContactsManager::load_user_from_database_impl`: queue the promise and
issue the database get query only if it is the first one queued. -/
def load_user_from_database_impl (p : Nat) (s : LoadDBState) : LoadDBState :=
  let q := s.queries ++ [p]
  { s with queries := q, db_gets := s.db_gets + (if q.length = 1 then 1 else 0) }

/-- The query bookkeeping and delivery of
`ContactsManager::on_load_user_from_database`: a repeated completion for an
already loaded id delivers nothing; otherwise the id is marked loaded, the
pending queue is drained, and every queued promise receives the same loaded
value. -/
def on_load_user_from_database (value : Nat) (s : LoadDBState) :
    LoadDBState × List (Nat × Nat) :=
  if s.loaded then (s, [])
  else ({ s with loaded := true, queries := [] }, s.queries.map (fun p => (p, value)))

/-- Modelled from the spec: the `QueryCombiner` multiplexer behind
`get_user_full_queries_`, whose implementation is not part of this
repository slice.  Per the spec, the first caller for an id issues the fetch
and registers itself; subsequent callers before completion simply append to
the pending list; on completion every pending callback is satisfied with the
same result and the pending entry is removed. -/
structure QueryCombiner where
  pending : List Nat
  in_flight : Bool
  sent : Nat
  deriving DecidableEq, Repr

/-- Modelled from the spec: registering a caller with the multiplexer.  The
first caller issues the underlying network fetch; later callers only queue. -/
def QueryCombiner.add_query (p : Nat) (s : QueryCombiner) : QueryCombiner :=
  if s.in_flight then { s with pending := s.pending ++ [p] }
  else { pending := s.pending ++ [p], in_flight := true, sent := s.sent + 1 }

/-- Modelled from the spec: completion of the underlying fetch delivers the
same result to every pending caller and removes the pending entry. -/
def QueryCombiner.on_result (r : Nat) (s : QueryCombiner) :
    QueryCombiner × List (Nat × Nat) :=
  ({ s with pending := [], in_flight := false }, s.pending.map (fun p => (p, r)))

/-! ### Speculative mutation (C6, C7)

`ContactsManager::speculative_add_count` (lines 7806-7817),
`ContactsManager::speculative_add_channel_participants` (lines 7877-7899),
`ContactsManager::speculative_add_channel_user` (count portion,
lines 7901-7966) and `ContactsManager::invalidate_channel_full`
(lines 7969-7985). -/

/-- `ContactsManager::speculative_add_count`: add the delta, clamp at zero,
and report whether the count changed.  Returns the new count and the
reported change flag (the C++ mutates `count` in place and returns the
flag). -/
def speculative_add_count (count : Int) (new_count : Int) : Int × Bool :=
  let new_count := new_count + count
  let new_count := if new_count < 0 then 0 else new_count
  if new_count = count then (count, false)
  else (new_count, true)

/-- A membership status, reduced to the four predicates the speculative
counters read. -/
structure DialogParticipantStatus where
  is_member : Bool
  is_administrator : Bool
  is_restricted : Bool
  is_banned : Bool
  deriving DecidableEq, Repr

/-- `DialogParticipantStatus::Member()`. -/
def DialogParticipantStatus.Member : DialogParticipantStatus := ⟨true, false, false, false⟩

/-- `DialogParticipantStatus::Left()`. -/
def DialogParticipantStatus.Left : DialogParticipantStatus := ⟨false, false, false, false⟩

/-- The separately tracked counters of a `ChannelFull` record. -/
structure ChannelFullCounts where
  participant_count : Int
  administrator_count : Int
  restricted_count : Int
  banned_count : Int
  is_changed : Bool
  deriving DecidableEq, Repr

/-- The counter-patching portion of
`ContactsManager::speculative_add_channel_user` acting on the `ChannelFull`
record (lines 7957-7964). -/
def speculative_add_channel_user_full (new_status old_status : DialogParticipantStatus)
    (cf : ChannelFullCounts) : ChannelFullCounts :=
  let r1 := speculative_add_count cf.participant_count
    (b2i new_status.is_member - b2i old_status.is_member)
  let r2 := speculative_add_count cf.administrator_count
    (b2i new_status.is_administrator - b2i old_status.is_administrator)
  let r3 := speculative_add_count cf.restricted_count
    (b2i new_status.is_restricted - b2i old_status.is_restricted)
  let r4 := speculative_add_count cf.banned_count
    (b2i new_status.is_banned - b2i old_status.is_banned)
  { participant_count := r1.1
    administrator_count := r2.1
    restricted_count := r3.1
    banned_count := r4.1
    is_changed := cf.is_changed || r1.2 || r2.2 || r3.2 || r4.2 }

/-- A channel entity record, reduced to the fields the speculative layer
touches. -/
structure ChannelRec where
  participant_count : Int
  need_send_update : Bool
  deriving DecidableEq, Repr

/-- A `ChannelFull` record, reduced to the fields the speculative layer and
invalidation touch: the counter, the expiry deadline and the cached invite
link. -/
structure ChannelFullRec where
  participant_count : Int
  expires_at : Int
  is_changed : Bool
  invite_link : Option String
  deriving DecidableEq, Repr

/-- The state the count overload of
`speculative_add_channel_participants` reads and writes: the channel record
and its full record, either possibly absent. -/
structure ChannelState where
  channel : Option ChannelRec
  channel_full : Option ChannelFullRec
  deriving DecidableEq, Repr

/-- `ContactsManager::invalidate_channel_full`: drop the full record's
expiry deadline to zero (so the next read refetches), optionally dropping
the cached invite link. -/
def invalidate_channel_full (drop_invite_link : Bool) (s : ChannelState) : ChannelState :=
  match s.channel_full with
  | some cf =>
    { s with
        channel_full := some { cf with
          expires_at := 0
          invite_link := if drop_invite_link then none else cf.invite_link } }
  | none => s

/-- The count overload of
`ContactsManager::speculative_add_channel_participants`: a change attributed
to the local actor only invalidates the full record; a remote echo patches
the channel count (when known to be non-zero) and the full record count. -/
def speculative_add_channel_participants_count (new_participant_count : Int) (by_me : Bool)
    (s : ChannelState) : ChannelState :=
  if by_me then
    -- Currently ignore all changes made by the current user, because they
    -- may be already counted
    invalidate_channel_full false s
  else
    let s :=
      match s.channel with
      | some c =>
        let r := speculative_add_count c.participant_count new_participant_count
        if c.participant_count ≠ 0 ∧ r.2 = true then
          { s with channel := some { participant_count := r.1, need_send_update := true } }
        else s
      | none => s
    match s.channel_full with
    | some cf =>
      let r := speculative_add_count cf.participant_count new_participant_count
      { s with
          channel_full := some { cf with
            participant_count := r.1
            is_changed := cf.is_changed || r.2 } }
    | none => s

/-! ### Full-info reads (C8)

`ContactsManager::UserFull::is_expired` (line 2265),
`ContactsManager::UserFull::is_bot_info_expired` (line 2261) and
`ContactsManager::get_user_full` (lines 9019-9050). -/

/-- `ContactsManager::UserFull::is_expired`. -/
def UserFull.is_expired (uf : UserFull) (now : Int) : Bool :=
  uf.expires_at < now

/-- `ContactsManager::UserFull::is_bot_info_expired`. -/
def UserFull.is_bot_info_expired (uf : UserFull) (bot_info_version : Int) : Bool :=
  bot_info_version ≠ -1 &&
    (match uf.bot_info with
      | none => true
      | some bi => bi.version ≠ bot_info_version)

/-- How `get_user_full` resolves the caller's promise. -/
inductive PromiseOutcome where
  | error (code : Nat) (msg : String)
  | attachedToFetch
  | fulfilled
  deriving DecidableEq, Repr

/-- Which promise a started full-info fetch carries: the caller's own
promise (the read blocks on the fetch) or a background `Auto()` promise. -/
inductive FetchKind where
  | callerAttached
  | background
  deriving DecidableEq, Repr

/-- The branch of `get_user_full` for an absent or uninitialized full
record: error out for an inaccessible user, otherwise start a fetch carrying
the caller's promise. -/
def get_user_full_absent (has_input_user : Bool) :
    Option (PromiseOutcome × Option FetchKind × Bool) :=
  if ¬has_input_user then
    some (.error 6 "Can't get info about inaccessible user", none, false)
  else
    some (.attachedToFetch, some .callerAttached, false)

/-- Result of `get_user_full`: how the promise was resolved, whether a fetch
was started and with which promise, and the function's boolean return value.
`none` models a failed `CHECK`. -/
def get_user_full (user : Option User) (user_full : Option UserFull)
    (has_input_user auth_is_bot : Bool) (now : Int) :
    Option (PromiseOutcome × Option FetchKind × Bool) :=
  match user with
  | none => some (.error 6 "User not found", none, false)
  | some u =>
    match user_full with
    | none => get_user_full_absent has_input_user
    | some uf =>
      if uf.is_inited = false then get_user_full_absent has_input_user
      else if uf.is_expired now || uf.is_bot_info_expired u.bot_info_version then
        if ¬has_input_user then
          none  -- CHECK(input_user != nullptr)
        else if auth_is_bot then
          some (.attachedToFetch, some .callerAttached, false)
        else
          some (.fulfilled, some .background, true)
      else
        some (.fulfilled, none, true)

/-! ### The contact-set hash (C9, C10)

`ContactsManager::get_contacts_hash` (lines 3590-3610) and the contact
add/remove transitions of `ContactsManager::update_contacts_hints`
(lines 8814-8831).  The hash combiner `get_vector_hash` lives in a utility
outside this repository slice and is modelled from its specification. -/

/-- The contact synchronization state `get_contacts_hash` reads: whether the
contact list finished loading, the key set of `contacts_hints_` (which never
contains the current user's id, per `is_user_contact`), the current user's
id and whether the current user's own outbound link is `Contact`, and the
server-reported saved contact count. -/
structure ContactsState where
  are_contacts_loaded : Bool
  contacts : Finset ℤ
  my_id : ℤ
  my_outbound_contact : Bool
  saved_contact_count : ℤ
  deriving DecidableEq

/-- `narrow_cast<uint32>`: reduction of an id into the 32-bit word pushed
into the hashed vector. -/
def toUInt32Nat (n : ℤ) : ℕ := (n % 2 ^ 32).toNat

/-- `std::upper_bound` insertion: place `x` after every element not greater
than it, keeping a sorted list sorted. -/
def insertUpperBound (x : ℤ) : List ℤ → List ℤ
  | [] => [x]
  | y :: ys => if x < y then x :: y :: ys else y :: insertUpperBound x ys

/-- Modelled from the spec: `get_vector_hash` (a tdutils helper outside this
repository slice) is a deterministic order-sensitive 32-bit hash over a
sequence of 32-bit words, here a 32-bit multiply-accumulate folded over the
sequence. -/
def get_vector_hash (numbers : List ℕ) : ℕ :=
  (numbers.foldl (fun acc n => (acc * 20261 + n) % 2 ^ 32) 0) % 2 ^ 31

/-- `ContactsManager::get_contacts_hash`: zero until contacts are loaded;
afterwards the hash of the saved contact count followed by the sorted
contact ids, with the current user's id inserted in order when the current
user is their own contact. -/
def get_contacts_hash (s : ContactsState) : ℕ :=
  if ¬s.are_contacts_loaded then 0
  else
    let user_ids := s.contacts.sort (· ≤ ·)
    let user_ids :=
      if s.my_outbound_contact then insertUpperBound s.my_id user_ids else user_ids
    get_vector_hash (toUInt32Nat s.saved_contact_count :: user_ids.map toUInt32Nat)

/-- The `contacts_hints_.add` transition of
`ContactsManager::update_contacts_hints`: a user that became a contact is
added to the hint key set. -/
def update_contacts_hints_add (uid : ℤ) (s : ContactsState) : ContactsState :=
  { s with contacts := insert uid s.contacts }

/-- The `contacts_hints_.remove` transition of
`ContactsManager::update_contacts_hints`: a user that stopped being a
contact is removed from the hint key set. -/
def update_contacts_hints_remove (uid : ℤ) (s : ContactsState) : ContactsState :=
  { s with contacts := s.contacts.erase uid }

/-! ## Theorems -/

/-- Claim C1, counterexample: the claim says any version other than
`cached + 1` (or `cached`) is rejected *and triggers a repair refetch*; but
`on_update_chat_full_participants_short` on a record with cached version `2`
rejects the invalid incoming version `-1` without issuing any repair
refetch. -/
theorem chat_version_gap_repair_counterexample :
    (-1 : Int) ≠ (2 : Int) + 1 ∧ (-1 : Int) ≠ (2 : Int)
    ∧ (on_update_chat_full_participants_short ⟨2⟩ (-1)).applied = false
    ∧ (on_update_chat_full_participants_short ⟨2⟩ (-1)).repairs = 0 := by
  decide

/-- Claim C1, amended: the stored version never decreases, and an update is
applied only when its version is exactly `cached + 1`.  In the participants
handler, any *non-negative* version other than `cached + 1` with a *known*
cached version is rejected with exactly one repair refetch (a negative
version, or an unknown `-1` cached version, is rejected without repair).  In
the administrator-edit handler, a version at or below the cached one is
ignored silently (idempotent re-delivery) and a version beyond `cached + 1`
is rejected with a repair refetch.  Feeding `[1, 2, 3]` in order from
version 0 yields version 3 with no repair and applies all three updates;
feeding `[1, 3]` yields one repair refetch and does not apply the version-3
fields. -/
theorem chat_version_monotone_gap_repair (cf : ChatFullV) (c : ChatV) (v : Int) :
    cf.version ≤ (on_update_chat_full_participants_short cf v).chat_full.version
    ∧ c.version ≤ (on_update_chat_edit_administrator_chat c v).chat.version
    ∧ ((on_update_chat_full_participants_short cf v).applied = true → v = cf.version + 1)
    ∧ ((on_update_chat_edit_administrator_chat c v).applied = true → v = c.version + 1)
    ∧ (0 ≤ v → 0 ≤ cf.version → v ≠ cf.version + 1 →
        on_update_chat_full_participants_short cf v = ⟨cf, false, 1⟩)
    ∧ (0 ≤ v → v ≤ c.version → on_update_chat_edit_administrator_chat c v = ⟨c, false, 0⟩)
    ∧ (0 ≤ c.version → c.version + 1 < v → on_update_chat_edit_administrator_chat c v = ⟨c, false, 1⟩)
    ∧ feed_short_versions ⟨0⟩ [1, 2, 3] = (⟨3⟩, 0, [1, 2, 3])
    ∧ feed_short_versions ⟨0⟩ [1, 3] = (⟨1⟩, 1, [1]) := by
  refine ⟨?_, ?_, ?_, ?_, ?_, ?_, ?_, by decide, by decide⟩
  · unfold on_update_chat_full_participants_short
    split_ifs <;> simp <;> omega
  · unfold on_update_chat_edit_administrator_chat
    split_ifs <;> simp <;> omega
  · unfold on_update_chat_full_participants_short
    split_ifs <;> simp <;> omega
  · unfold on_update_chat_edit_administrator_chat
    split_ifs <;> simp <;> omega
  · intro h1 h2 h3
    unfold on_update_chat_full_participants_short
    split_ifs with g1 g2 g3 <;> first | rfl | omega
  · intro h1 h2
    unfold on_update_chat_edit_administrator_chat
    split_ifs with g1 g2 g3 <;> first | rfl | omega
  · intro h1 h2
    unfold on_update_chat_edit_administrator_chat
    split_ifs with g1 g2 g3 <;> first | rfl | omega

/-- Claim C1, witness: a concrete gap (`7` against cached version `0`) is
rejected with exactly one repair refetch. -/
theorem chat_version_monotone_gap_repair_witness :
    (0 : Int) ≤ 7 ∧ (0 : Int) ≤ 0 ∧ (7 : Int) ≠ 0 + 1
    ∧ on_update_chat_full_participants_short ⟨0⟩ 7 = ⟨⟨0⟩, false, 1⟩ :=
  ⟨by norm_num, le_refl 0, by norm_num,
    (chat_version_monotone_gap_repair ⟨0⟩ ⟨0, false⟩ 7).2.2.2.2.1
      (by norm_num) (le_refl 0) (by norm_num)⟩

/-- Claim C2: with a bot info of version `V` cached in the full record, an
incoming bot-info update of version `W` replaces the stored bot info and
marks the record changed exactly when `V < W`; when `W ≤ V` the record is
returned unchanged and no change is reported. -/
theorem bot_info_version_gate (uf : UserFull) (bi : BotInfo) (input : BotInfoInput)
    (W : Int) (h : uf.bot_info = some bi) :
    (bi.version < W →
      on_update_user_full_bot_info uf W input
        = ({ uf with
              bot_info := some ⟨W, input.description, input.commands⟩
              is_changed := true }, true))
    ∧ (W ≤ bi.version → on_update_user_full_bot_info uf W input = (uf, false)) := by
  unfold on_update_user_full_bot_info
  rw [h]
  constructor <;> intro hw <;> dsimp only <;> split_ifs with h1 h2 <;> first | rfl | omega

/-- Claim C2, witness: with cached version 3, version 4 is accepted and
version 3 is ignored. -/
theorem bot_info_version_gate_witness :
    ((3 : Int) < 4
      ∧ on_update_user_full_bot_info ⟨some ⟨3, "d", []⟩, false, true, 10⟩ 4 ⟨"e", [("c", "h")]⟩
          = (⟨some ⟨4, "e", [("c", "h")]⟩, true, true, 10⟩, true))
    ∧ ((3 : Int) ≤ 3
      ∧ on_update_user_full_bot_info ⟨some ⟨3, "d", []⟩, false, true, 10⟩ 3 ⟨"e", [("c", "h")]⟩
          = (⟨some ⟨3, "d", []⟩, false, true, 10⟩, false)) :=
  ⟨⟨by norm_num,
      (bot_info_version_gate ⟨some ⟨3, "d", []⟩, false, true, 10⟩ ⟨3, "d", []⟩
        ⟨"e", [("c", "h")]⟩ 4 rfl).1 (by norm_num)⟩,
    ⟨le_refl 3,
      (bot_info_version_gate ⟨some ⟨3, "d", []⟩, false, true, 10⟩ ⟨3, "d", []⟩
        ⟨"e", [("c", "h")]⟩ 3 rfl).2 (le_refl 3)⟩⟩

/-- Claim C6: the speculative counter adjustment sets the count to
`max 0 (c + d)` and reports a change exactly when that differs from `c`;
consequently, the speculative handling of a locally issued add-participant
request (new status `Member`, old status `Left`) raises the tracked
participant count from `c` to `c + 1`. -/
theorem speculative_add_count_clamped (c d : Int) (h : 0 ≤ c) :
    (speculative_add_count c d).1 = max 0 (c + d)
    ∧ ((speculative_add_count c d).2 = true ↔ max 0 (c + d) ≠ c)
    ∧ (∀ cf : ChannelFullCounts, cf.participant_count = c →
        (speculative_add_channel_user_full .Member .Left cf).participant_count = c + 1) := by
  refine ⟨?_, ?_, ?_⟩
  · simp only [speculative_add_count]
    split_ifs <;> simp <;> omega
  · simp only [speculative_add_count]
    split_ifs <;> simp <;> omega
  · intro cf hc
    simp only [speculative_add_channel_user_full, speculative_add_count,
      DialogParticipantStatus.Member, DialogParticipantStatus.Left, b2i]
    norm_num
    split_ifs <;> simp_all <;> omega

/-- Claim C6, witness: from count 5, a delta of `-7` clamps to 0 and reports
a change, and a speculative member addition on a full record with 5
participants yields 6. -/
theorem speculative_add_count_clamped_witness :
    (0 : Int) ≤ 5
    ∧ (speculative_add_count 5 (-7)).1 = max 0 (5 + (-7))
    ∧ ((speculative_add_count 5 (-7)).2 = true ↔ max 0 (5 + (-7)) ≠ 5)
    ∧ (speculative_add_channel_user_full .Member .Left ⟨5, 1, 0, 0, false⟩).participant_count
        = 5 + 1 :=
  ⟨by norm_num, (speculative_add_count_clamped 5 (-7) (by norm_num)).1,
    (speculative_add_count_clamped 5 (-7) (by norm_num)).2.1,
    (speculative_add_count_clamped 5 (-7) (by norm_num)).2.2 ⟨5, 1, 0, 0, false⟩ rfl⟩

/-- Claim C7: a speculative channel-participant change attributed to the
local actor leaves the channel record and both participant counters
untouched and instead invalidates the full record by zeroing its expiry
deadline (without dropping the cached invite link), so the next
authoritative read refetches from the server. -/
theorem speculative_by_me_invalidates_full (s : ChannelState) (d : Int) :
    (speculative_add_channel_participants_count d true s).channel = s.channel
    ∧ (speculative_add_channel_participants_count d true s).channel_full.map
        (·.participant_count) = s.channel_full.map (·.participant_count)
    ∧ (speculative_add_channel_participants_count d true s).channel_full.map
        (·.invite_link) = s.channel_full.map (·.invite_link)
    ∧ (speculative_add_channel_participants_count d true s).channel_full.map
        (·.expires_at) = s.channel_full.map (fun _ => (0 : Int)) := by
  unfold speculative_add_channel_participants_count invalidate_channel_full
  cases h : s.channel_full <;> simp [h]

/-- Claim C10: before the contact list has finished loading,
`get_contacts_hash` is 0, whatever the in-memory contact set, the saved
count, or the current user's own contact state. -/
theorem contacts_hash_zero_before_load (s : ContactsState)
    (h : s.are_contacts_loaded = false) : get_contacts_hash s = 0 := by
  unfold get_contacts_hash
  simp [h]

/-- Claim C10, witness: a concrete unloaded state with a non-empty contact
set hashes to 0. -/
theorem contacts_hash_zero_before_load_witness :
    (⟨false, {1, 2}, 7, true, 5⟩ : ContactsState).are_contacts_loaded = false
    ∧ get_contacts_hash ⟨false, {1, 2}, 7, true, 5⟩ = 0 :=
  ⟨rfl, contacts_hash_zero_before_load ⟨false, {1, 2}, 7, true, 5⟩ rfl⟩

/-- Claim C9: the contact-set hash depends only on the loaded flag, the
contact id set, the current user's own contact state and the saved contact
count (so recomputing it with no intervening mutation yields the same
value), and adding a new contact and then removing that same contact
returns the hash to its original value. -/
theorem contacts_hash_stable (s t : ContactsState) (uid : ℤ)
    (hl : s.are_contacts_loaded = t.are_contacts_loaded) (hc : s.contacts = t.contacts)
    (hm : s.my_id = t.my_id) (ho : s.my_outbound_contact = t.my_outbound_contact)
    (hs : s.saved_contact_count = t.saved_contact_count)
    (huid : uid ∉ s.contacts) :
    get_contacts_hash s = get_contacts_hash t
    ∧ get_contacts_hash (update_contacts_hints_remove uid (update_contacts_hints_add uid s))
        = get_contacts_hash s := by
  constructor
  · have : s = t := by
      cases s; cases t
      simp_all
    rw [this]
  · unfold update_contacts_hints_remove update_contacts_hints_add
    simp [Finset.erase_insert huid]

/-- Claim C9, witness: over the contact set `{1, 3}`, adding contact 2 and
removing it restores the hash. -/
theorem contacts_hash_stable_witness :
    (2 : ℤ) ∉ (⟨true, {1, 3}, 7, false, 2⟩ : ContactsState).contacts
    ∧ get_contacts_hash
        (update_contacts_hints_remove 2 (update_contacts_hints_add 2 ⟨true, {1, 3}, 7, false, 2⟩))
        = get_contacts_hash ⟨true, {1, 3}, 7, false, 2⟩ :=
  ⟨by decide,
    (contacts_hash_stable ⟨true, {1, 3}, 7, false, 2⟩ ⟨true, {1, 3}, 7, false, 2⟩ 2
      rfl rfl rfl rfl rfl (by decide)).2⟩

/-- Helper: once a database load query is queued for an id, further queued
promises never issue another database get, and the queue grows in order. -/
theorem load_fold_after_first (ps qs : List Nat) (ld : Bool) (g : Nat) (h : qs ≠ []) :
    ps.foldl (fun t p => load_user_from_database_impl p t) ⟨qs, ld, g⟩ = ⟨qs ++ ps, ld, g⟩ := by
  induction ps generalizing qs with
  | nil => simp
  | cons p ps ih =>
    have hlen : qs.length ≠ 0 := fun hh => h (List.length_eq_zero.mp hh)
    have hq : (qs ++ [p]).length ≠ 1 := by
      rw [List.length_append, List.length_singleton]
      omega
    have step : load_user_from_database_impl p ⟨qs, ld, g⟩ = ⟨qs ++ [p], ld, g⟩ := by
      simp [load_user_from_database_impl, hq, h]
    rw [List.foldl_cons, step, ih (qs ++ [p]) (by simp)]
    simp

/-- Helper: while the multiplexer has a fetch in flight, additional callers
only queue and never issue another fetch. -/
theorem combiner_fold_in_flight (ps pend : List Nat) (n : Nat) :
    ps.foldl (fun t p => QueryCombiner.add_query p t) ⟨pend, true, n⟩
      = ⟨pend ++ ps, true, n⟩ := by
  induction ps generalizing pend with
  | nil => simp
  | cons p ps ih =>
    have step : QueryCombiner.add_query p ⟨pend, true, n⟩ = ⟨pend ++ [p], true, n⟩ := by
      simp [QueryCombiner.add_query]
    rw [List.foldl_cons, step, ih (pend ++ [p])]
    simp

/-- Claim C5: any number of full-info requests for one id issued while a
request is already queued coalesce into a single underlying operation.  On
the database-load path, queuing `ps` promises issues exactly one database
get and completion hands every queued promise the same loaded value; on the
network path, registering `ps` callers with the multiplexer issues exactly
one fetch and completion hands every caller the same result. -/
theorem full_info_fetch_coalesced (ps : List Nat) (v r : Nat) (h : ps ≠ []) :
    (ps.foldl (fun t p => load_user_from_database_impl p t) ⟨[], false, 0⟩).db_gets = 1
    ∧ (on_load_user_from_database v
        (ps.foldl (fun t p => load_user_from_database_impl p t) ⟨[], false, 0⟩)).2
        = ps.map (fun p => (p, v))
    ∧ (ps.foldl (fun t p => QueryCombiner.add_query p t) ⟨[], false, 0⟩).sent = 1
    ∧ (QueryCombiner.on_result r
        (ps.foldl (fun t p => QueryCombiner.add_query p t) ⟨[], false, 0⟩)).2
        = ps.map (fun p => (p, r)) := by
  cases ps with
  | nil => exact absurd rfl h
  | cons p ps =>
    have step1 : load_user_from_database_impl p ⟨[], false, 0⟩
        = ⟨[p], false, 1⟩ := by
      simp [load_user_from_database_impl]
    have hload := load_fold_after_first ps [p] false 1 (by simp)
    have stepc : QueryCombiner.add_query p ⟨[], false, 0⟩ = ⟨[p], true, 1⟩ := by
      simp [QueryCombiner.add_query]
    have hcomb := combiner_fold_in_flight ps [p] 1
    refine ⟨?_, ?_, ?_, ?_⟩
    · rw [List.foldl_cons, step1, hload]
    · rw [List.foldl_cons, step1, hload]
      simp [on_load_user_from_database]
    · rw [List.foldl_cons, stepc, hcomb]
    · rw [List.foldl_cons, stepc, hcomb]
      simp [QueryCombiner.on_result]

/-- Claim C5, witness: three concurrent callers issue one database get and
one network fetch, and all three receive the same result. -/
theorem full_info_fetch_coalesced_witness :
    ([1, 2, 3] : List Nat) ≠ []
    ∧ (([1, 2, 3] : List Nat).foldl
        (fun t p => load_user_from_database_impl p t) ⟨[], false, 0⟩).db_gets = 1
    ∧ (on_load_user_from_database 9
        (([1, 2, 3] : List Nat).foldl
          (fun t p => load_user_from_database_impl p t) ⟨[], false, 0⟩)).2
        = [(1, 9), (2, 9), (3, 9)]
    ∧ (([1, 2, 3] : List Nat).foldl
        (fun t p => QueryCombiner.add_query p t) ⟨[], false, 0⟩).sent = 1
    ∧ (QueryCombiner.on_result 4
        (([1, 2, 3] : List Nat).foldl
          (fun t p => QueryCombiner.add_query p t) ⟨[], false, 0⟩)).2
        = [(1, 4), (2, 4), (3, 4)] := by
  have := full_info_fetch_coalesced [1, 2, 3] 9 4 (by decide)
  exact ⟨by decide, this.1, this.2.1, this.2.2.1, this.2.2.2⟩

/-- Claim C8: a read through `get_user_full` that finds an initialized but
expired record fulfills the caller's promise immediately (returning `true`)
while starting a background refresh carrying a throwaway promise; only a
caller requiring a fresh value (a bot-auth client) has its own promise
attached to the fetch, blocking the read; and an initialized fresh record is
returned with no fetch at all. -/
theorem stale_full_read_nonblocking (u : User) (uf : UserFull) (now : Int)
    (hinit : uf.is_inited = true) :
    (uf.is_expired now = true →
      get_user_full (some u) (some uf) true false now
          = some (.fulfilled, some .background, true)
        ∧ get_user_full (some u) (some uf) true true now
          = some (.attachedToFetch, some .callerAttached, false))
    ∧ (uf.is_expired now = false → uf.is_bot_info_expired u.bot_info_version = false →
        ∀ b, get_user_full (some u) (some uf) true b now = some (.fulfilled, none, true)) := by
  constructor
  · intro hexp
    constructor <;> simp [get_user_full, hinit, hexp]
  · intro hexp hbi b
    simp [get_user_full, hinit, hexp, hbi]

/-- Claim C8, witness: a concrete initialized record that expired at time 5
read at time 10 is returned stale immediately with a background refresh for
a user client, and blocks a bot client on the fetch. -/
theorem stale_full_read_nonblocking_witness :
    (⟨none, false, true, 5⟩ : UserFull).is_inited = true
    ∧ (⟨none, false, true, 5⟩ : UserFull).is_expired 10 = true
    ∧ get_user_full
        (some ⟨false, false, false, false, false, false, false, false, false, true, true,
          false, false, false, 0, 0, 0, 0, -1⟩)
        (some ⟨none, false, true, 5⟩) true false 10
        = some (.fulfilled, some .background, true)
    ∧ get_user_full
        (some ⟨false, false, false, false, false, false, false, false, false, true, true,
          false, false, false, 0, 0, 0, 0, -1⟩)
        (some ⟨none, false, true, 5⟩) true true 10
        = some (.attachedToFetch, some .callerAttached, false) :=
  ⟨rfl, by decide,
    ((stale_full_read_nonblocking
      ⟨false, false, false, false, false, false, false, false, false, true, true,
        false, false, false, 0, 0, 0, 0, -1⟩ ⟨none, false, true, 5⟩ 10 rfl).1
      (by decide)).1,
    ((stale_full_read_nonblocking
      ⟨false, false, false, false, false, false, false, false, false, true, true,
        false, false, false, 0, 0, 0, 0, -1⟩ ⟨none, false, true, 5⟩ 10 rfl).1
      (by decide)).2⟩

/-- Claim C4: in the two-phase save pipeline, the write-ahead-log entry is
erased only when the keyed-store write confirms success and the record is
fully saved afterwards; on failure the record is first re-marked unsaved,
the log entry is retained, and a fresh keyed-store write is scheduled. -/
theorem save_pipeline_wal_safety (env : SaveEnv) (s : SaveState) (L : Nat)
    (hdb : env.use_chat_info_db = true) (hload : env.loaded_from_database = true)
    (_hbs : s.u.is_being_saved = true) (hL : s.u.logevent_id = L) (hL0 : L ≠ 0)
    (hmem : L ∈ s.binlog) :
    (∀ success, (on_save_user_to_database env success s).u.logevent_id = 0 →
        success = true
        ∧ (on_save_user_to_database env success s).u.is_saved = true
        ∧ (on_save_user_to_database env success s).u.is_status_saved = true)
    ∧ (on_save_user_to_database_mark false s).u.is_saved = false
    ∧ (on_save_user_to_database_mark false s).u.is_status_saved = false
    ∧ (on_save_user_to_database env false s).u.logevent_id = L
    ∧ L ∈ (on_save_user_to_database env false s).binlog
    ∧ (on_save_user_to_database env false s).pending_db_write = true := by
  have hmark_f : on_save_user_to_database_mark false s
      = { s with
            u := { s.u with
                    is_being_saved := false
                    is_saved := false
                    is_status_saved := false }
            pending_db_write := false } := by
    simp [on_save_user_to_database_mark]
  have hmark_t : on_save_user_to_database_mark true s
      = { s with u := { s.u with is_being_saved := false }, pending_db_write := false } := by
    simp [on_save_user_to_database_mark]
  have hfail : on_save_user_to_database env false s
      = { s with
            u := { s.u with
                    is_being_saved := true
                    is_saved := true
                    is_status_saved := true }
            pending_db_write := true } := by
    simp only [on_save_user_to_database]
    rw [hmark_f]
    simp [save_user, save_user_to_database, save_user_to_database_impl, hdb, hload, hL, hL0]
  have hsucc_saved : s.u.is_saved = true → s.u.is_status_saved = true →
      on_save_user_to_database env true s
        = { s with
              u := { s.u with
                      is_being_saved := false
                      logevent_id := 0 }
              pending_db_write := false
              binlog := s.binlog.erase L } := by
    intro hs hss
    simp only [on_save_user_to_database]
    rw [hmark_t]
    simp [hs, hss, hL, hL0]
  have hsucc_dirty : (s.u.is_saved = false ∨ s.u.is_status_saved = false) →
      on_save_user_to_database env true s
        = { s with
              u := { s.u with
                      is_being_saved := true
                      is_saved := true
                      is_status_saved := true }
              pending_db_write := true } := by
    intro hs
    simp only [on_save_user_to_database]
    rw [hmark_t]
    rcases hs with hs | hs <;>
      simp [save_user, save_user_to_database, save_user_to_database_impl, hdb, hload,
        hL, hL0, hs]
  refine ⟨?_, by simp [hmark_f], by simp [hmark_f], by simp [hfail, hL],
    by simp [hfail]; exact hmem, by simp [hfail]⟩
  intro success hzero
  cases success
  · rw [hfail] at hzero
    simp [hL] at hzero
    exact absurd hzero hL0
  · refine ⟨rfl, ?_, ?_⟩
    · cases hs : s.u.is_saved
      · rw [hsucc_dirty (Or.inl hs)] at hzero
        simp [hL] at hzero
        exact absurd hzero hL0
      · cases hss : s.u.is_status_saved
        · rw [hsucc_dirty (Or.inr hss)] at hzero
          simp [hL] at hzero
          exact absurd hzero hL0
        · rw [hsucc_saved hs hss]
          simp [hs]
    · cases hs : s.u.is_saved
      · rw [hsucc_dirty (Or.inl hs)] at hzero
        simp [hL] at hzero
        exact absurd hzero hL0
      · cases hss : s.u.is_status_saved
        · rw [hsucc_dirty (Or.inr hss)] at hzero
          simp [hL] at hzero
          exact absurd hzero hL0
        · rw [hsucc_saved hs hss]
          simp [hss]

/-- Claim C4, witness: a concrete record with log entry 5 and a failing
keyed-store write keeps entry 5, stays in the binlog, and reschedules the
write. -/
theorem save_pipeline_wal_safety_witness :
    (⟨true, true, false⟩ : SaveEnv).use_chat_info_db = true
    ∧ (on_save_user_to_database ⟨true, true, false⟩ false
        ⟨⟨false, false, false, false, false, false, false, false, false, true, true, true,
          false, false, 0, 5, 0, 0, -1⟩, [5], 6, true, false⟩).u.logevent_id = 5
    ∧ 5 ∈ (on_save_user_to_database ⟨true, true, false⟩ false
        ⟨⟨false, false, false, false, false, false, false, false, false, true, true, true,
          false, false, 0, 5, 0, 0, -1⟩, [5], 6, true, false⟩).binlog
    ∧ (on_save_user_to_database ⟨true, true, false⟩ false
        ⟨⟨false, false, false, false, false, false, false, false, false, true, true, true,
          false, false, 0, 5, 0, 0, -1⟩, [5], 6, true, false⟩).pending_db_write = true :=
  have h := save_pipeline_wal_safety ⟨true, true, false⟩
    ⟨⟨false, false, false, false, false, false, false, false, false, true, true, true,
      false, false, 0, 5, 0, 0, -1⟩, [5], 6, true, false⟩ 5
    rfl rfl rfl rfl (by decide) (by decide)
  ⟨rfl, h.2.2.2.1, h.2.2.2.2.1, h.2.2.2.2.2⟩

/-- Helper: per-secret-chat title notifications are never the public
`updateUser` event. -/
theorem countP_sendUpdate_title (l : List Int) :
    l.countP (UEvent.isSendUpdateUser ∘ fun x => UEvent.dialogTitleUpdated x) = 0 := by
  induction l with
  | nil => rfl
  | cons a l ih => simp [List.countP_cons, ih, UEvent.isSendUpdateUser, Function.comp]

/-- Helper: per-secret-chat photo notifications are never the public
`updateUser` event. -/
theorem countP_sendUpdate_photo (l : List Int) :
    l.countP (UEvent.isSendUpdateUser ∘ fun x => UEvent.dialogPhotoUpdated x) = 0 := by
  induction l with
  | nil => rfl
  | cons a l ih => simp [List.countP_cons, ih, UEvent.isSendUpdateUser, Function.comp]

/-- Helper: `update_user` emits the public `updateUser` event exactly when
`need_send_update` was set, and then exactly once. -/
theorem update_user_sendUpdate_countP (env : UpdateEnv) (u : User) (fb fd : Bool) :
    (update_user env u fb fd).2.countP UEvent.isSendUpdateUser
      = if u.need_send_update then 1 else 0 := by
  cases hns : u.need_send_update <;>
  cases hch : u.is_changed <;>
  cases hsc : u.is_status_changed <;>
  cases hon : u.is_online_status_changed <;>
    simp [update_user, hns, hch, hsc, hon, List.countP_append, List.countP_map,
      List.countP_eq_zero, UEvent.isSendUpdateUser, Function.comp, apply_ite Prod.snd,
      apply_ite (List.countP UEvent.isSendUpdateUser), apply_ite User.need_send_update,
      apply_ite User.is_status_changed, apply_ite User.is_online_status_changed,
      apply_ite User.is_changed, apply_ite User.is_repaired, apply_ite User.cache_version,
      countP_sendUpdate_title, countP_sendUpdate_photo]

/-- Helper: after any pass of `update_user`, every dirty flag (per-field and
aggregate) is clear. -/
theorem update_user_clears_dirty_flags (env : UpdateEnv) (u : User) (fb fd : Bool) :
    (update_user env u fb fd).1.dirtyFlagsClear := by
  cases hns : u.need_send_update <;>
  cases hch : u.is_changed <;>
  cases hsc : u.is_status_changed <;>
  cases hon : u.is_online_status_changed <;>
    simp [update_user, User.dirtyFlagsClear, hns, hch, hsc, hon, apply_ite Prod.fst,
      apply_ite User.is_name_changed, apply_ite User.is_username_changed,
      apply_ite User.is_photo_changed, apply_ite User.is_outbound_link_changed,
      apply_ite User.is_default_permissions_changed, apply_ite User.is_status_changed,
      apply_ite User.is_online_status_changed, apply_ite User.is_changed,
      apply_ite User.need_send_update, apply_ite User.is_repaired,
      apply_ite User.cache_version]

/-- Helper: `update_user` never raises `need_send_update`. -/
theorem update_user_need_send_update (env : UpdateEnv) (u : User) (fb fd : Bool) :
    (update_user env u fb fd).1.need_send_update = false :=
  (update_user_clears_dirty_flags env u fb fd).2.2.2.2.2.2.2.2

/-- Claim C3: applying `update_user` to a record with `need_send_update` set
emits exactly one public `updateUser` event and clears both aggregate flags,
and applying it again to the resulting record emits no further public update
event and leaves every dirty flag clear. -/
theorem update_dispatch_exactly_once (env : UpdateEnv) (u : User) (fb : Bool)
    (h : u.need_send_update = true) :
    (update_user env u fb false).2.countP UEvent.isSendUpdateUser = 1
    ∧ (update_user env u fb false).1.need_send_update = false
    ∧ (update_user env u fb false).1.is_changed = false
    ∧ (update_user env (update_user env u fb false).1 fb false).2.countP
        UEvent.isSendUpdateUser = 0
    ∧ (update_user env (update_user env u fb false).1 fb false).1.dirtyFlagsClear := by
  refine ⟨?_, ?_, ?_, ?_, ?_⟩
  · rw [update_user_sendUpdate_countP, h]
    rfl
  · exact update_user_need_send_update env u fb false
  · exact (update_user_clears_dirty_flags env u fb false).2.2.2.2.2.2.2.1
  · rw [update_user_sendUpdate_countP, update_user_need_send_update]
    rfl
  · exact update_user_clears_dirty_flags env (update_user env u fb false).1 fb false

/-- Claim C3, witness: a concrete record with `need_send_update` set emits
one public update, the flags clear, and a second application emits none. -/
theorem update_dispatch_exactly_once_witness :
    (⟨false, false, false, false, false, false, false, false, true, true, true, false,
      false, false, 0, 0, 0, 0, -1⟩ : User).need_send_update = true
    ∧ (update_user ⟨1, 2, [], 0, false, 0, true, false⟩
        ⟨false, false, false, false, false, false, false, false, true, true, true, false,
          false, false, 0, 0, 0, 0, -1⟩ false false).2.countP UEvent.isSendUpdateUser = 1
    ∧ (update_user ⟨1, 2, [], 0, false, 0, true, false⟩
        (update_user ⟨1, 2, [], 0, false, 0, true, false⟩
          ⟨false, false, false, false, false, false, false, false, true, true, true, false,
            false, false, 0, 0, 0, 0, -1⟩ false false).1 false false).2.countP
        UEvent.isSendUpdateUser = 0 :=
  have h := update_dispatch_exactly_once ⟨1, 2, [], 0, false, 0, true, false⟩
    ⟨false, false, false, false, false, false, false, false, true, true, true, false,
      false, false, 0, 0, 0, 0, -1⟩ false rfl
  ⟨rfl, h.1, h.2.2.2.1⟩

end TD
